import Mathlib

/-!
Shallow embedding of the book-service CRUD layer (book-service.ts) over an
explicit relational state.  The `book` table (db.ts migration) becomes a list
of `Row`s; each service operation becomes a pure function on that state.
Nondeterminism supplied by the store (the generated UUID of an insert, the
CURRENT_TIMESTAMP value) is made an explicit argument.  Store errors are
modelled where an operation can encounter them: the duplicate-key violations
of the schema's constraints on INSERT (mapped to `AlreadyExists` by the
catch-block), the uuid-binding rejection of a malformed identifier against
the uuid-typed `id` column, and the parse error of the malformed UPDATE
statement that the tagged template produces; errors the catch-blocks do not
classify propagate unchanged as `ServiceErr.store`.
-/

/-- Error codes used by the service (subset of encore's `ErrCode`). -/
inductive ErrCode where
  | NotFound
  | AlreadyExists
  | InvalidArgument
  | Internal
deriving DecidableEq

/-- An `APIError(code, message)` as thrown by the service. -/
structure APIError where
  code : ErrCode
  message : String
deriving DecidableEq

/-- An error surfaced by an operation: either an `APIError` thrown by the
service itself, or a store-layer error that the service does not classify
and therefore rethrows / propagates unchanged (surfacing as a
generic/internal error at the API boundary, never as a service-classified
`APIError`). -/
inductive ServiceErr where
  | api : APIError → ServiceErr
  | store : String → ServiceErr
deriving DecidableEq

deriving instance DecidableEq for Except

/-- One row of the `book` table (migration in db.ts): five data columns plus
the `created_at` / `updated_at` timestamps.  Timestamps are modelled as `Nat`
ticks. `published_date` and `isbn` are nullable, hence `Option`. -/
structure Row where
  id : String
  title : String
  author : String
  publishedDate : Option String
  isbn : Option String
  createdAt : Nat
  updatedAt : Nat
deriving DecidableEq

/-- The `Book` type returned by every endpoint: exactly the five fields
`id, title, author, publishedDate, isbn` — no timestamps. -/
structure Book where
  id : String
  title : String
  author : String
  publishedDate : Option String
  isbn : Option String
deriving DecidableEq

/-- The database state: the rows of the single `book` table. -/
abbrev DBState := List Row

/-- The projection every SELECT of the service performs:
`SELECT id, title, author, published_date AS "publishedDate", isbn`. -/
def rowToBook (r : Row) : Book :=
  { id := r.id, title := r.title, author := r.author
    publishedDate := r.publishedDate, isbn := r.isbn }

/-- The store's case-sensitive text collation, modelled as code-point
lexicographic order on the character list of a string. -/
def leChars : List Char → List Char → Bool
  | [], _ => true
  | _ :: _, [] => false
  | a :: as, b :: bs => if a = b then leChars as bs else decide (a < b)

/-- The ordering used by `ORDER BY title ASC`. -/
def titleLE (a b : Row) : Prop := leChars a.title.data b.title.data = true

instance : DecidableRel titleLE :=
  fun a b => inferInstanceAs (Decidable (leChars a.title.data b.title.data = true))

/-- `ORDER BY title ASC` over the whole row set, modelled as a sort. -/
def sortByTitle (s : List Row) : List Row := List.insertionSort titleLE s

/-- GET /books — `listBooks`: select all rows, order by title, project. -/
def listBooks (s : DBState) : List Book := (sortByTitle s).map rowToBook

/-- GET /books/:id — `getBook`, restricted to identifiers the store's uuid
parameter binding accepts: `queryRow` with `WHERE id = ${id}` (the first
matching row), `NotFound` when there is none.  The store's rejection of a
malformed identifier against the uuid-typed `id` column is modelled by
`getBookUuid` below, which agrees with this function on accepted
identifiers. -/
def getBook (s : DBState) (id : String) : Except APIError Book :=
  match s.find? (fun r => r.id == id) with
  | none => .error ⟨.NotFound, "Book with ID " ++ id ++ " not found"⟩
  | some r => .ok (rowToBook r)

/-- Hexadecimal digit, as accepted inside a uuid literal. -/
def isHexDigit (c : Char) : Bool :=
  c.isDigit || ('a' ≤ c && c ≤ 'f') || ('A' ≤ c && c ≤ 'F')

/-- The store's `uuid` input syntax for the `id UUID PRIMARY KEY` column
(db.ts migration), in the canonical hyphenated 8-4-4-4-12 hex form: this is
what decides whether the parameterized `WHERE id = ${id}` binding succeeds. -/
def validUuid (s : String) : Bool :=
  let cs := s.data
  cs.length == 36 &&
    (List.range 36).all (fun i =>
      if i == 8 || i == 13 || i == 18 || i == 23 then cs.getD i ' ' == '-'
      else isHexDigit (cs.getD i ' '))

/-- The store error raised when a malformed identifier is bound against the
uuid-typed `id` column. -/
def uuidBindError (id : String) : String :=
  "invalid input syntax for type uuid: \"" ++ id ++ "\""

/-- GET /books/:id — full model of `getBook` against the uuid-typed `id`
column: the service performs no format validation itself, but binding a
malformed identifier makes the store raise an error before any row is
compared, and the service (which has no try/catch here) propagates that
store error unchanged; for identifiers the store accepts, the lookup is
exactly `getBook`. -/
def getBookUuid (s : DBState) (id : String) : Except ServiceErr Book :=
  if validUuid id then
    match s.find? (fun r => r.id == id) with
    | none => .error (.api ⟨.NotFound, "Book with ID " ++ id ++ " not found"⟩)
    | some r => .ok (rowToBook r)
  else
    .error (.store (uuidBindError id))

/-- Parameters of POST /books. -/
structure CreateBookParams where
  title : String
  author : String
  publishedDate : Option String := none
  isbn : Option String := none

/-- The store raises a `duplicate key` error on INSERT when the generated id
collides with an existing primary key or the supplied non-null `isbn`
collides with an existing row (the `isbn TEXT UNIQUE` constraint).  NULL
isbns never conflict. -/
def dupKeyOnInsert (s : DBState) (newId : String) (isbn : Option String) : Bool :=
  s.any (fun r => r.id == newId) ||
    (match isbn with
     | none => false
     | some v => s.any (fun r => r.isbn == some v))

/-- POST /books — `createBook`: INSERT ... RETURNING.  A `duplicate key`
store error is caught and rethrown as `AlreadyExists`; otherwise the new row
(with store-generated `newId` and both timestamps set to `now`) is appended
and returned through the five-column projection. -/
def createBook (s : DBState) (p : CreateBookParams) (newId : String) (now : Nat) :
    Except APIError Book × DBState :=
  if dupKeyOnInsert s newId p.isbn then
    (.error ⟨.AlreadyExists, "A book with this ISBN already exists"⟩, s)
  else
    let r : Row := ⟨newId, p.title, p.author, p.publishedDate, p.isbn, now, now⟩
    (.ok (rowToBook r), s ++ [r])

/-- Parameters of PUT /books/:id; a field is "supplied" iff it is `some`. -/
structure UpdateBookParams where
  id : String
  title : Option String := none
  author : Option String := none
  publishedDate : Option String := none
  isbn : Option String := none

/-- The `updates` array built field by field in `updateBook`: one
`"col = $n"` entry per supplied field (placeholder number = length of the
`values` array so far + 1), then always `"updated_at = CURRENT_TIMESTAMP"`. -/
def buildUpdates (p : UpdateBookParams) : List String :=
  let us : List String := []
  let us := if p.title.isSome then
    us ++ ["title = $" ++ toString (us.length + 1)] else us
  let us := if p.author.isSome then
    us ++ ["author = $" ++ toString (us.length + 1)] else us
  let us := if p.publishedDate.isSome then
    us ++ ["published_date = $" ++ toString (us.length + 1)] else us
  let us := if p.isbn.isSome then
    us ++ ["isbn = $" ++ toString (us.length + 1)] else us
  us ++ ["updated_at = CURRENT_TIMESTAMP"]

/-- `segStarts l cs` holds when `cs` starts with the segment `l`. -/
def segStarts (l cs : List Char) : Bool :=
  match l with
  | [] => true
  | a :: as =>
    match cs with
    | [] => false
    | b :: bs => a == b && segStarts as bs

/-- Contiguous-segment (substring) occurrence of `l` inside `cs`: some suffix
of `cs` starts with `l`. -/
def containsSeg (l cs : List Char) : Bool :=
  cs.tails.any (fun suf => segStarts l suf)

/-- The store's parse error for the UPDATE statement the tagged template
actually produces: the composed SET clause is interpolated as a template
value, so it is bound as the single parameter `$1` and the statement sent is
`UPDATE book SET $1 WHERE id = $2` — invalid SQL.  (The `values` array built
alongside `updates` is never passed to any query.) -/
def updateStmtSyntaxError : String := "syntax error at or near \"$1\""

/-- The catch-block classification (`err.message?.includes('duplicate key')`):
an error whose message contains `duplicate key` is rethrown as
`AlreadyExists`; any other error is rethrown unchanged. -/
def rethrowCaught (msg : String) : ServiceErr :=
  if containsSeg ("duplicate key".data) msg.data then
    .api ⟨.AlreadyExists, "A book with this ISBN already exists"⟩
  else
    .store msg

/-- PUT /books/:id — `updateBook`:
1. `SELECT 1 ... WHERE id` existence check, `NotFound` when absent;
2. build the dynamic SET list; when it consists only of the always-pushed
   `updated_at = CURRENT_TIMESTAMP` entry, `InvalidArgument`;
3. otherwise the UPDATE is issued through the tagged template, which binds
   the composed clause text as a single parameter: the store receives
   `UPDATE book SET $1 WHERE id = $2`, fails to parse it, and raises
   `updateStmtSyntaxError` before touching any row; the catch block does not
   match `duplicate key` on that message, so the error is rethrown unchanged
   and the state is unmodified.  The source's success, duplicate-key and
   defensive-`Internal` paths are unreachable. -/
def updateBook (s : DBState) (p : UpdateBookParams) (now : Nat) :
    Except ServiceErr Book × DBState :=
  if !(s.any (fun r => r.id == p.id)) then
    (.error (.api ⟨.NotFound, "Book with ID " ++ p.id ++ " not found"⟩), s)
  else
    let updates := buildUpdates p
    if updates.length == 1 && updates.head? == some "updated_at = CURRENT_TIMESTAMP" then
      (.error (.api ⟨.InvalidArgument, "No fields to update were provided"⟩), s)
    else
      (.error (rethrowCaught updateStmtSyntaxError), s)

/-- DELETE /books/:id — `deleteBook`: run the DELETE, then re-query
`SELECT 1 ... WHERE id` against the post-delete state; throw `NotFound` when
the row still exists, otherwise return success. -/
def deleteBook (s : DBState) (id : String) : Except APIError Bool × DBState :=
  let s' := s.filter (fun r => !(r.id == id))
  let stillExists := s'.any (fun r => r.id == id)
  if stillExists then
    (.error ⟨.NotFound, "Book with ID " ++ id ++ " not found"⟩, s')
  else
    (.ok true, s')

/-- SQL LIKE pattern matching over character lists: `%` matches any sequence
(that is, the rest of the pattern matches some suffix of the text), `_`
matches any single character, a backslash escapes the following pattern
character, every other character matches itself.  (Postgres rejects a
pattern ending in a lone escape character; here such a pattern simply
matches nothing, which no claim depends on.) -/
def likeMatch : List Char → List Char → Bool
  | [], cs => cs.isEmpty
  | p :: ps, cs =>
    if p = '%' then
      cs.tails.any (fun suf => likeMatch ps suf)
    else if p = '_' then
      match cs with
      | [] => false
      | _ :: cs' => likeMatch ps cs'
    else if p = '\\' then
      match ps with
      | [] => false
      | q :: ps' =>
        match cs with
        | [] => false
        | c :: cs' => q == c && likeMatch ps' cs'
    else
      match cs with
      | [] => false
      | c :: cs' => p == c && likeMatch ps cs'

/-- Lowercasing of a character list (the `I` of ILIKE). -/
def lowerL (l : List Char) : List Char := l.map Char.toLower

/-- Postgres `text ILIKE pat`: case-insensitive LIKE. -/
def ilike (pat text : String) : Bool :=
  likeMatch (lowerL pat.data) (lowerL text.data)

/-- GET /books/search — `searchBooks`: the query is wrapped as-is (no
escaping) into the wildcard pattern `%query%` and matched with ILIKE against
`title` and `author`; matches are ordered by title and projected. -/
def searchBooks (s : DBState) (query : String) : List Book :=
  let searchPattern := "%" ++ query ++ "%"
  (sortByTitle (s.filter (fun r =>
    ilike searchPattern r.title || ilike searchPattern r.author))).map rowToBook

/-- A pattern fragment is "wildcard-free" when it contains none of the three
characters that are special in LIKE patterns. -/
def noWild (l : List Char) : Prop := ∀ c ∈ l, c ≠ '%' ∧ c ≠ '_' ∧ c ≠ '\\'

/-- The specification's matching condition: `text` contains `q` as a
case-insensitive substring. -/
def containsCI (text q : String) : Bool :=
  containsSeg (lowerL q.data) (lowerL text.data)

instance (l : List Char) : Decidable (noWild l) :=
  inferInstanceAs (Decidable (∀ c ∈ l, c ≠ '%' ∧ c ≠ '_' ∧ c ≠ '\\'))

/-- The primary-key invariant of the `book` table: all ids distinct. -/
def uniqueIds (s : DBState) : Prop := List.Pairwise (fun a b => a.id ≠ b.id) s

/-- The `isbn TEXT UNIQUE` invariant: non-null isbn values are pairwise
distinct (NULL isbns never conflict). -/
def uniqueIsbns (s : DBState) : Prop :=
  List.Pairwise (fun a b => ∀ v, a.isbn = some v → b.isbn ≠ some v) s

/-! Helper lemmas. -/

lemma any_id_eq_false {s : DBState} {i : String} (h : ∀ r ∈ s, r.id ≠ i) :
    s.any (fun r => r.id == i) = false := by
  simp only [List.any_eq_false]
  intro r hr
  simpa using h r hr

lemma any_id_eq_true {s : DBState} {i : String} {r : Row} (hr : r ∈ s) (hid : r.id = i) :
    s.any (fun x => x.id == i) = true :=
  List.any_eq_true.mpr ⟨r, hr, by simp [hid]⟩

lemma find?_id_eq_none {s : DBState} {i : String} (h : ∀ r ∈ s, r.id ≠ i) :
    s.find? (fun r => r.id == i) = none := by
  simp only [List.find?_eq_none]
  intro r hr
  simpa using h r hr

lemma buildUpdates_noFields {p : UpdateBookParams} (ht : p.title = none) (ha : p.author = none)
    (hd : p.publishedDate = none) (hi : p.isbn = none) :
    buildUpdates p = ["updated_at = CURRENT_TIMESTAMP"] := by
  simp [buildUpdates, ht, ha, hd, hi]

lemma leChars_total : ∀ as bs : List Char, leChars as bs = true ∨ leChars bs as = true := by
  intro as
  induction as with
  | nil => intro bs; left; rfl
  | cons a as ih =>
    intro bs
    cases bs with
    | nil => right; rfl
    | cons b bs' =>
      by_cases hab : a = b
      · subst hab
        rcases ih bs' with h | h
        · left; simpa [leChars] using h
        · right; simpa [leChars] using h
      · rcases lt_or_gt_of_ne hab with h | h
        · left; simp [leChars, hab, h]
        · right
          have hba : ¬b = a := fun e => hab e.symm
          have h' : b < a := h
          simp [leChars, hba, h']

lemma leChars_trans :
    ∀ as bs cs : List Char,
      leChars as bs = true → leChars bs cs = true → leChars as cs = true := by
  intro as
  induction as with
  | nil => intros; rfl
  | cons a as ih =>
    intro bs cs h1 h2
    cases bs with
    | nil => simp [leChars] at h1
    | cons b bs' =>
      cases cs with
      | nil => simp [leChars] at h2
      | cons c cs' =>
        by_cases hab : a = b <;> by_cases hbc : b = c
        · subst hab; subst hbc
          simp only [leChars, if_pos rfl] at h1 h2 ⊢
          exact ih _ _ h1 h2
        · subst hab
          simp only [leChars, if_neg hbc] at h2
          simp [leChars, hbc, of_decide_eq_true h2]
        · subst hbc
          simp only [leChars, if_neg hab] at h1
          simp [leChars, hab, of_decide_eq_true h1]
        · simp only [leChars, if_neg hab] at h1
          simp only [leChars, if_neg hbc] at h2
          have hac : a < c := lt_trans (of_decide_eq_true h1) (of_decide_eq_true h2)
          simp [leChars, ne_of_lt hac, hac]

instance : IsTotal Row titleLE :=
  ⟨fun a b => leChars_total a.title.data b.title.data⟩

instance : IsTrans Row titleLE :=
  ⟨fun a b c => leChars_trans a.title.data b.title.data c.title.data⟩

/-! Claim theorems (with their helper lemmas). -/

/-- C1: the spec says a delete of a non-existent id must surface `NotFound`,
and a second delete of the same id must also yield `NotFound`.  The code's
re-query check is inverted — after the DELETE the row is always absent — so
deleting a never-created id returns success, and so does a second delete
right after a successful one. -/
theorem deleteBook_missing_silently_succeeds :
    deleteBook [] "00000000-0000-0000-0000-000000000000" = (.ok true, []) ∧
    deleteBook [⟨"b1", "T", "A", none, none, 0, 0⟩] "b1" = (.ok true, []) ∧
    deleteBook [] "b1" = (.ok true, []) :=
  ⟨rfl, rfl, rfl⟩

lemma getBookUuid_agrees (s : DBState) (i : String) (h : validUuid i = true) :
    getBookUuid s i =
      (match getBook s i with
       | .ok b => .ok b
       | .error e => .error (.api e)) := by
  unfold getBookUuid getBook
  rw [if_pos h]
  cases s.find? (fun r => r.id == i) <;> rfl

/-- C4 counterexample: the original claim says a malformed identifier is
treated as "no match" and yields `NotFound`; against the uuid-typed `id`
column the parameterized query instead fails at binding, and the service
propagates the store error unchanged — for the malformed id "not-a-uuid"
the result is a store error, not the NotFound `APIError`. -/
theorem getBook_malformed_id_counterexample :
    getBookUuid [] "not-a-uuid" = .error (.store (uuidBindError "not-a-uuid")) ∧
    getBookUuid [] "not-a-uuid" ≠
      .error (.api ⟨.NotFound, "Book with ID not-a-uuid not found"⟩) :=
  ⟨rfl, by decide⟩

/-- C4 (amended): for every identifier the store's uuid binding accepts,
`getBook` with no matching row fails with `NotFound` (the service adds no
format validation of its own); a malformed identifier is rejected by the
store's binding and surfaces as a propagated store error, never as
`NotFound`. -/
theorem getBookUuid_notFound_or_bind_error (s : DBState) (i : String) :
    (validUuid i = true → (∀ r ∈ s, r.id ≠ i) →
      getBookUuid s i =
        .error (.api ⟨.NotFound, "Book with ID " ++ i ++ " not found"⟩)) ∧
    (validUuid i = false → getBookUuid s i = .error (.store (uuidBindError i))) := by
  constructor
  · intro hv h
    unfold getBookUuid
    rw [if_pos hv, find?_id_eq_none h]
  · intro hv
    unfold getBookUuid
    rw [if_neg (by simp [hv])]

theorem getBookUuid_notFound_or_bind_error_witness :
    getBookUuid [] "00000000-0000-0000-0000-000000000000" =
      .error (.api ⟨.NotFound,
        "Book with ID 00000000-0000-0000-0000-000000000000 not found"⟩) :=
  (getBookUuid_notFound_or_bind_error [] "00000000-0000-0000-0000-000000000000").1
    (by decide) (by decide)

/-- C6: `updateBook` on an id with no matching row fails with `NotFound` for
every choice of supplied fields — including zero supplied fields, since the
existence check precedes the field-count check. -/
theorem updateBook_absent_notFound (s : DBState) (p : UpdateBookParams) (now : Nat)
    (h : ∀ r ∈ s, r.id ≠ p.id) :
    updateBook s p now =
      (.error (.api ⟨.NotFound, "Book with ID " ++ p.id ++ " not found"⟩), s) := by
  simp [updateBook, any_id_eq_false h]

theorem updateBook_absent_notFound_witness :
    updateBook [] ⟨"missing", none, none, none, none⟩ 3 =
      (.error (.api ⟨.NotFound, "Book with ID missing not found"⟩), []) :=
  updateBook_absent_notFound _ _ _ (by decide)

/-- C7: `updateBook` on an existing id with none of the four updatable fields
supplied fails with `InvalidArgument` and leaves the state unchanged. -/
theorem updateBook_noFields_invalidArgument (s : DBState) (p : UpdateBookParams) (now : Nat)
    (hex : ∃ r ∈ s, r.id = p.id)
    (ht : p.title = none) (ha : p.author = none)
    (hd : p.publishedDate = none) (hi : p.isbn = none) :
    updateBook s p now =
      (.error (.api ⟨.InvalidArgument, "No fields to update were provided"⟩), s) := by
  obtain ⟨r, hr, hid⟩ := hex
  simp [updateBook, any_id_eq_true hr hid, buildUpdates_noFields ht ha hd hi]

theorem updateBook_noFields_invalidArgument_witness :
    updateBook [⟨"b1", "T", "A", none, none, 0, 0⟩] ⟨"b1", none, none, none, none⟩ 3 =
      (.error (.api ⟨.InvalidArgument, "No fields to update were provided"⟩),
       [⟨"b1", "T", "A", none, none, 0, 0⟩]) :=
  updateBook_noFields_invalidArgument _ _ _
    ⟨⟨"b1", "T", "A", none, none, 0, 0⟩, by decide, rfl⟩ rfl rfl rfl rfl

/-- C9: `listBooks` returns every stored row exactly once (its result is a
permutation of the projected table), sorted by title ascending, and yields
the empty sequence on the empty store. -/
theorem listBooks_complete_sorted :
    (∀ s : DBState,
      (listBooks s).Perm (s.map rowToBook) ∧
      List.Sorted (fun a b : Book => leChars a.title.data b.title.data = true) (listBooks s)) ∧
    listBooks [] = [] := by
  refine ⟨fun s => ⟨?_, ?_⟩, rfl⟩
  · exact (List.perm_insertionSort titleLE s).map rowToBook
  · have hs := List.sorted_insertionSort titleLE s
    unfold listBooks sortByTitle
    rw [List.Sorted, List.pairwise_map]
    exact hs

/-- C8: a successful `createBook` followed by `getBook` on the returned id
yields a Book equal field-for-field to the created one: both return exactly
the supplied `title`, `author`, `publishedDate`, `isbn` under the generated
id. -/
theorem createBook_then_getBook (s : DBState) (p : CreateBookParams) (nid : String) (now : Nat)
    (hfresh : ∀ r ∈ s, r.id ≠ nid)
    (hisbn : ∀ v, p.isbn = some v → ∀ r ∈ s, r.isbn ≠ some v) :
    createBook s p nid now =
      (.ok ⟨nid, p.title, p.author, p.publishedDate, p.isbn⟩,
       s ++ [⟨nid, p.title, p.author, p.publishedDate, p.isbn, now, now⟩]) ∧
    getBook (s ++ [⟨nid, p.title, p.author, p.publishedDate, p.isbn, now, now⟩]) nid =
      .ok ⟨nid, p.title, p.author, p.publishedDate, p.isbn⟩ := by
  have h2 : (match p.isbn with
      | none => false
      | some v => s.any (fun r => r.isbn == some v)) = false := by
    cases hp : p.isbn with
    | none => rfl
    | some v =>
      simp only [List.any_eq_false]
      intro r hr
      simpa using hisbn v hp r hr
  have hdup : dupKeyOnInsert s nid p.isbn = false := by
    unfold dupKeyOnInsert
    rw [any_id_eq_false hfresh, h2]
    rfl
  constructor
  · simp [createBook, hdup, rowToBook]
  · have hfind : (s ++ [(⟨nid, p.title, p.author, p.publishedDate, p.isbn, now, now⟩ : Row)]).find?
        (fun r => r.id == nid) =
        some ⟨nid, p.title, p.author, p.publishedDate, p.isbn, now, now⟩ := by
      rw [List.find?_append, find?_id_eq_none hfresh]
      simp [List.find?]
    simp [getBook, hfind, rowToBook]

theorem createBook_then_getBook_witness :
    createBook [] ⟨"T", "A", some "2020-01-01", some "isbn-1"⟩ "b1" 4 =
      (.ok ⟨"b1", "T", "A", some "2020-01-01", some "isbn-1"⟩,
       [⟨"b1", "T", "A", some "2020-01-01", some "isbn-1", 4, 4⟩]) ∧
    getBook [⟨"b1", "T", "A", some "2020-01-01", some "isbn-1", 4, 4⟩] "b1" =
      .ok ⟨"b1", "T", "A", some "2020-01-01", some "isbn-1"⟩ :=
  createBook_then_getBook [] ⟨"T", "A", some "2020-01-01", some "isbn-1"⟩ "b1" 4
    (by decide) (fun v _ r hr => by cases hr)

/-- C10: every Book any operation returns is the five-field projection
(`id, title, author, publishedDate, isbn`) of a row of the relevant state,
and that projection is oblivious to the stored `created_at` / `updated_at`
timestamps, which therefore never appear in a returned Book. -/
theorem books_are_five_field_projections :
    (∀ s : DBState, ∀ b ∈ listBooks s, ∃ r ∈ s, b = rowToBook r) ∧
    (∀ (s : DBState) (i : String) (b : Book), getBook s i = .ok b → ∃ r ∈ s, b = rowToBook r) ∧
    (∀ (s : DBState) (p : CreateBookParams) (nid : String) (now : Nat) (b : Book) (s' : DBState),
      createBook s p nid now = (.ok b, s') → ∃ r ∈ s', b = rowToBook r) ∧
    (∀ (s : DBState) (p : UpdateBookParams) (now : Nat) (b : Book) (s' : DBState),
      updateBook s p now = (.ok b, s') → ∃ r ∈ s', b = rowToBook r) ∧
    (∀ (s : DBState) (q : String), ∀ b ∈ searchBooks s q, ∃ r ∈ s, b = rowToBook r) ∧
    (∀ (r : Row) (c u : Nat), rowToBook { r with createdAt := c, updatedAt := u } = rowToBook r) := by
  refine ⟨?_, ?_, ?_, ?_, ?_, fun r c u => rfl⟩
  · intro s b hb
    obtain ⟨r, hr, hb⟩ := List.mem_map.mp hb
    exact ⟨r, (List.perm_insertionSort titleLE s).mem_iff.mp hr, hb.symm⟩
  · intro s i b hb
    unfold getBook at hb
    cases hfind : s.find? (fun r => r.id == i) with
    | none => rw [hfind] at hb; cases hb
    | some r =>
      rw [hfind] at hb
      exact ⟨r, List.mem_of_find?_eq_some hfind, (Except.ok.inj hb).symm⟩
  · intro s p nid now b s' hb
    unfold createBook at hb
    split at hb
    · simp at hb
    · dsimp only at hb
      simp only [Prod.mk.injEq] at hb
      refine ⟨⟨nid, p.title, p.author, p.publishedDate, p.isbn, now, now⟩, ?_, ?_⟩
      · rw [← hb.2]; simp
      · exact (Except.ok.inj hb.1).symm
  · intro s p now b s' hb
    unfold updateBook at hb
    dsimp only at hb
    split at hb
    · simp at hb
    · split at hb
      · simp at hb
      · simp at hb
  · intro s q b hb
    obtain ⟨r, hr, hb⟩ := List.mem_map.mp hb
    have hr' := (List.perm_insertionSort titleLE _).mem_iff.mp hr
    exact ⟨r, List.mem_of_mem_filter hr', hb.symm⟩

theorem books_are_five_field_projections_witness :
    ∃ r ∈ [(⟨"b1", "T", "A", none, none, 0, 0⟩ : Row)],
      (⟨"b1", "T", "A", none, none⟩ : Book) = rowToBook r :=
  books_are_five_field_projections.2.1 [⟨"b1", "T", "A", none, none, 0, 0⟩] "b1"
    ⟨"b1", "T", "A", none, none⟩ rfl

lemma buildUpdates_guard_false {p : UpdateBookParams}
    (hsome : p.title.isSome ∨ p.author.isSome ∨ p.publishedDate.isSome ∨ p.isbn.isSome) :
    ((buildUpdates p).length == 1 &&
      (buildUpdates p).head? == some "updated_at = CURRENT_TIMESTAMP") = false := by
  obtain ⟨i, t, a, d, n⟩ := p
  cases t <;> cases a <;> cases d <;> cases n <;> simp_all [buildUpdates]

lemma rethrowCaught_syntax_error :
    rethrowCaught updateStmtSyntaxError = .store updateStmtSyntaxError := rfl

lemma updateBook_snd_eq (s : DBState) (p : UpdateBookParams) (now : Nat) :
    (updateBook s p now).2 = s := by
  unfold updateBook
  dsimp only
  split
  · rfl
  · split
    · rfl
    · rfl

lemma updateBook_never_alreadyExists (s : DBState) (p : UpdateBookParams) (now : Nat)
    (msg : String) :
    (updateBook s p now).1 ≠ .error (.api ⟨.AlreadyExists, msg⟩) := by
  unfold updateBook
  dsimp only
  split
  · intro h
    simp at h
  · split
    · intro h
      simp at h
    · intro h
      rw [rethrowCaught_syntax_error] at h
      simp at h

/-- C2: the spec (and the repo's own update test) says `updateBook` on an
existing row with at least one supplied field updates exactly those fields
and returns the post-update Book.  The code cannot do this: the tagged
template binds the composed SET clause as parameter `$1` (and never passes
the `values` array), so the store receives the malformed statement
`UPDATE book SET $1 WHERE id = $2`, raises a parse error, and the catch
rethrows it unchanged — every update attempt past the guards fails with the
propagated store error and leaves every row untouched. -/
theorem updateBook_set_clause_parse_error (s : DBState) (p : UpdateBookParams) (now : Nat)
    (hex : ∃ r ∈ s, r.id = p.id)
    (hsome : p.title.isSome ∨ p.author.isSome ∨ p.publishedDate.isSome ∨ p.isbn.isSome) :
    updateBook s p now = (.error (.store updateStmtSyntaxError), s) := by
  obtain ⟨r, hr, hid⟩ := hex
  have hany := any_id_eq_true hr hid
  have hg2 := buildUpdates_guard_false hsome
  simp only [updateBook, hany, Bool.not_true, Bool.false_eq_true, if_false, hg2,
    rethrowCaught_syntax_error]

theorem updateBook_set_clause_parse_error_witness :
    updateBook [⟨"b1", "Old Title", "Old Author", some "2020-01-01", some "isbn-1", 0, 0⟩]
        ⟨"b1", some "New Title", some "New Author", none, none⟩ 5 =
      (.error (.store updateStmtSyntaxError),
       [⟨"b1", "Old Title", "Old Author", some "2020-01-01", some "isbn-1", 0, 0⟩]) :=
  updateBook_set_clause_parse_error _ _ _
    ⟨⟨"b1", "Old Title", "Old Author", some "2020-01-01", some "isbn-1", 0, 0⟩,
      by decide, rfl⟩ (by decide)

lemma dupKeyOnInsert_false {s : DBState} {nid : String} {i : Option String}
    (hfresh : ∀ r ∈ s, r.id ≠ nid)
    (hisbn : ∀ v, i = some v → ∀ r ∈ s, r.isbn ≠ some v) :
    dupKeyOnInsert s nid i = false := by
  unfold dupKeyOnInsert
  rw [any_id_eq_false hfresh]
  cases hp : i with
  | none => rfl
  | some v =>
    simp only [Bool.false_or, List.any_eq_false]
    intro r hr
    simpa using hisbn v hp r hr

lemma createBook_ok (s : DBState) (p : CreateBookParams) (nid : String) (now : Nat)
    (hfresh : ∀ r ∈ s, r.id ≠ nid)
    (hisbn : ∀ v, p.isbn = some v → ∀ r ∈ s, r.isbn ≠ some v) :
    createBook s p nid now =
      (.ok ⟨nid, p.title, p.author, p.publishedDate, p.isbn⟩,
       s ++ [⟨nid, p.title, p.author, p.publishedDate, p.isbn, now, now⟩]) := by
  simp [createBook, dupKeyOnInsert_false hfresh hisbn, rowToBook]

lemma createBook_dupIsbn (s : DBState) (p : CreateBookParams) (nid : String) (now : Nat)
    (v : String) (hv : p.isbn = some v) (hex : ∃ r ∈ s, r.isbn = some v) :
    createBook s p nid now =
      (.error ⟨.AlreadyExists, "A book with this ISBN already exists"⟩, s) := by
  obtain ⟨r, hr, hrv⟩ := hex
  have hany : s.any (fun x => x.isbn == some v) = true :=
    List.any_eq_true.mpr ⟨r, hr, by simp [hrv]⟩
  have hd : dupKeyOnInsert s nid p.isbn = true := by
    unfold dupKeyOnInsert
    rw [hv]
    simp [hany]
  simp [createBook, hd]

lemma uniqueIsbns_createBook {s : DBState} {p : CreateBookParams} {nid : String} {now : Nat}
    {b : Book} {s' : DBState}
    (hinv : uniqueIsbns s) (h : createBook s p nid now = (.ok b, s')) :
    uniqueIsbns s' := by
  unfold createBook at h
  split at h
  · simp at h
  · rename_i hdup
    dsimp only at h
    simp only [Prod.mk.injEq] at h
    rw [← h.2]
    unfold uniqueIsbns
    apply List.pairwise_append.mpr
    refine ⟨hinv, List.pairwise_singleton _ _, ?_⟩
    intro a ha x hx v hav
    rcases List.mem_singleton.mp hx with rfl
    intro hxv
    apply hdup
    unfold dupKeyOnInsert
    simp only [hxv] at *
    have hany : s.any (fun r => r.isbn == some v) = true :=
      List.any_eq_true.mpr ⟨a, ha, by simp [hav]⟩
    simp [hany, hxv]

lemma uniqueIsbns_deleteBook {s : DBState} {i : String} {res : Except APIError Bool}
    {s' : DBState}
    (hinv : uniqueIsbns s) (h : deleteBook s i = (res, s')) :
    uniqueIsbns s' := by
  unfold deleteBook at h
  dsimp only at h
  split at h <;>
  · simp only [Prod.mk.injEq] at h
    rw [← h.2]
    exact List.Pairwise.sublist (List.filter_sublist s) hinv

/-- C5 (amended): non-null isbn values are unique at all times as enforced on
inserts: a create whose non-null isbn already exists fails with
`AlreadyExists` while a non-conflicting create succeeds (so of two creates
with the same non-null isbn the first succeeds and the second fails, and two
isbn-omitting creates both succeed).  `updateBook`, however, can never fail
with `AlreadyExists`: its UPDATE statement is malformed (the SET clause is
bound as parameter `$1`), so every attempt past the guards fails with the
propagated store parse error before the unique constraint is ever evaluated,
and no update modifies any row — hence creates, updates and deletes all
preserve the pairwise-distinct non-null-isbn invariant. -/
theorem isbn_uniqueness :
    (∀ (s : DBState) (p : CreateBookParams) (nid : String) (now : Nat) (v : String),
      p.isbn = some v → (∃ r ∈ s, r.isbn = some v) →
      createBook s p nid now =
        (.error ⟨.AlreadyExists, "A book with this ISBN already exists"⟩, s)) ∧
    (∀ (s : DBState) (p : CreateBookParams) (nid : String) (now : Nat),
      (∀ r ∈ s, r.id ≠ nid) → (∀ v, p.isbn = some v → ∀ r ∈ s, r.isbn ≠ some v) →
      createBook s p nid now =
        (.ok ⟨nid, p.title, p.author, p.publishedDate, p.isbn⟩,
         s ++ [⟨nid, p.title, p.author, p.publishedDate, p.isbn, now, now⟩])) ∧
    (∀ (s : DBState) (q1 q2 : CreateBookParams) (n1 n2 : String) (t1 t2 : Nat) (v : String),
      q1.isbn = some v → q2.isbn = some v →
      (∀ r ∈ s, r.id ≠ n1) → (∀ r ∈ s, r.isbn ≠ some v) →
      ∃ b1 s1, createBook s q1 n1 t1 = (.ok b1, s1) ∧
        createBook s1 q2 n2 t2 =
          (.error ⟨.AlreadyExists, "A book with this ISBN already exists"⟩, s1)) ∧
    (∀ (s : DBState) (q1 q2 : CreateBookParams) (n1 n2 : String) (t1 t2 : Nat),
      q1.isbn = none → q2.isbn = none →
      (∀ r ∈ s, r.id ≠ n1) → (∀ r ∈ s, r.id ≠ n2) → n1 ≠ n2 →
      ∃ b1 s1 b2 s2, createBook s q1 n1 t1 = (.ok b1, s1) ∧
        createBook s1 q2 n2 t2 = (.ok b2, s2)) ∧
    (∀ (s : DBState) (p : UpdateBookParams) (now : Nat),
      (updateBook s p now).2 = s ∧
      ∀ msg, (updateBook s p now).1 ≠ .error (.api ⟨.AlreadyExists, msg⟩)) ∧
    (∀ (s : DBState) (p : CreateBookParams) (nid : String) (now : Nat) (b : Book) (s' : DBState),
      uniqueIsbns s → createBook s p nid now = (.ok b, s') → uniqueIsbns s') ∧
    (∀ (s : DBState) (p : UpdateBookParams) (now : Nat),
      uniqueIsbns s → uniqueIsbns (updateBook s p now).2) ∧
    (∀ (s : DBState) (i : String) (res : Except APIError Bool) (s' : DBState),
      uniqueIsbns s → deleteBook s i = (res, s') → uniqueIsbns s') := by
  refine ⟨?_, ?_, ?_, ?_, ?_, ?_, ?_, ?_⟩
  · intro s p nid now v hv hex
    exact createBook_dupIsbn s p nid now v hv hex
  · intro s p nid now hf hi
    exact createBook_ok s p nid now hf hi
  · intro s q1 q2 n1 n2 t1 t2 v h1 h2 hf1 hno
    refine ⟨_, _, createBook_ok s q1 n1 t1 hf1 (fun w hw r hr => by
        rw [h1] at hw
        rw [← Option.some.inj hw]
        exact hno r hr), ?_⟩
    apply createBook_dupIsbn _ q2 n2 t2 v h2
    exact ⟨⟨n1, q1.title, q1.author, q1.publishedDate, q1.isbn, t1, t1⟩,
      by simp, by simpa using h1⟩
  · intro s q1 q2 n1 n2 t1 t2 h1 h2 hf1 hf2 hne
    have hc1 := createBook_ok s q1 n1 t1 hf1 (fun v hv => by rw [h1] at hv; cases hv)
    have hc2 := createBook_ok
      (s ++ [⟨n1, q1.title, q1.author, q1.publishedDate, q1.isbn, t1, t1⟩]) q2 n2 t2
      (fun r hr => by
        rcases List.mem_append.mp hr with h | h
        · exact hf2 r h
        · rcases List.mem_singleton.mp h with rfl
          exact hne)
      (fun v hv => by rw [h2] at hv; cases hv)
    exact ⟨_, _, _, _, hc1, hc2⟩
  · intro s p now
    exact ⟨updateBook_snd_eq s p now, fun msg => updateBook_never_alreadyExists s p now msg⟩
  · intro s p nid now b s' hinv h
    exact uniqueIsbns_createBook hinv h
  · intro s p now hinv
    rw [updateBook_snd_eq s p now]
    exact hinv
  · intro s i res s' hinv h
    exact uniqueIsbns_deleteBook hinv h

theorem isbn_uniqueness_witness :
    createBook [⟨"b1", "T", "A", none, some "isbn-1", 0, 0⟩]
        ⟨"T2", "A2", none, some "isbn-1"⟩ "b2" 7 =
      (.error ⟨.AlreadyExists, "A book with this ISBN already exists"⟩,
       [⟨"b1", "T", "A", none, some "isbn-1", 0, 0⟩]) :=
  isbn_uniqueness.1 _ _ _ _ "isbn-1" rfl
    ⟨⟨"b1", "T", "A", none, some "isbn-1", 0, 0⟩, by simp, rfl⟩

/-- C5 counterexample: with two stored rows whose isbns are "isbn-1" and
"isbn-2", updating the second book's isbn to "isbn-1" — which the original
claim says must fail with `AlreadyExists` — instead fails with the
propagated store parse error of the malformed UPDATE statement, which is not
the `AlreadyExists` `APIError`, and leaves both rows unchanged. -/
theorem updateBook_isbn_collision_not_alreadyExists :
    updateBook
        [⟨"b1", "T1", "A1", none, some "isbn-1", 0, 0⟩,
         ⟨"b2", "T2", "A2", none, some "isbn-2", 0, 0⟩]
        ⟨"b2", none, none, none, some "isbn-1"⟩ 5 =
      (.error (.store updateStmtSyntaxError),
       [⟨"b1", "T1", "A1", none, some "isbn-1", 0, 0⟩,
        ⟨"b2", "T2", "A2", none, some "isbn-2", 0, 0⟩]) ∧
    ServiceErr.store updateStmtSyntaxError ≠
      .api ⟨.AlreadyExists, "A book with this ISBN already exists"⟩ :=
  ⟨rfl, by decide⟩


lemma likeMatch_lit_percent : ∀ l : List Char, noWild l →
    ∀ cs : List Char, likeMatch (l ++ ['%']) cs = segStarts l cs := by
  intro l
  induction l with
  | nil =>
    intro _ cs
    rw [List.nil_append]
    conv_lhs => rw [likeMatch.eq_def]
    show List.any cs.tails (fun suf => likeMatch [] suf) = true
    exact List.any_eq_true.mpr ⟨[], (List.mem_tails _ _).mpr List.nil_suffix, rfl⟩
  | cons c l ih =>
    intro hl cs
    have hc := hl c (List.mem_cons_self c l)
    have hl' : noWild l := fun x hx => hl x (List.mem_cons_of_mem c hx)
    cases cs with
    | nil =>
      rw [List.cons_append]
      conv_lhs => rw [likeMatch.eq_def]
      dsimp only
      rw [if_neg hc.1, if_neg hc.2.1, if_neg hc.2.2]
      rfl
    | cons d cs' =>
      rw [List.cons_append]
      conv_lhs => rw [likeMatch.eq_def]
      dsimp only
      rw [if_neg hc.1, if_neg hc.2.1, if_neg hc.2.2]
      show (c == d && likeMatch (l ++ ['%']) cs') = segStarts (c :: l) (d :: cs')
      rw [ih hl' cs']
      rfl

lemma likeMatch_wrap_eq_containsSeg (l : List Char) (hl : noWild l) (cs : List Char) :
    likeMatch ('%' :: (l ++ ['%'])) cs = containsSeg l cs := by
  conv_lhs => rw [likeMatch.eq_def]
  dsimp only
  rw [if_pos rfl]
  unfold containsSeg
  have hf : (fun suf => likeMatch (l ++ ['%']) suf) = (fun suf => segStarts l suf) :=
    funext (fun suf => likeMatch_lit_percent l hl suf)
  rw [hf]

lemma pattern_lower (q : String) :
    lowerL ("%" ++ q ++ "%").data = '%' :: (lowerL q.data ++ ['%']) := by
  obtain ⟨d⟩ := q
  have h5 : Char.toLower '%' = '%' := by decide
  show List.map Char.toLower (('%' :: d) ++ ['%']) = '%' :: (List.map Char.toLower d ++ ['%'])
  rw [List.map_append, List.map_cons, h5]
  rfl

lemma ilike_wrap_eq_containsCI (q : String) (hq : noWild (lowerL q.data)) (t : String) :
    ilike ("%" ++ q ++ "%") t = containsCI t q := by
  unfold ilike containsCI
  rw [pattern_lower q]
  exact likeMatch_wrap_eq_containsSeg (lowerL q.data) hq (lowerL t.data)

/-- C3 (amended): for queries free of the LIKE wildcard characters, case-
insensitive substring containment in title or author is exactly the matching
condition of `searchBooks`, results are ordered by title ascending, and a
query matching nothing yields the empty sequence (never an error); a query
containing wildcard characters is instead matched as-is (unescaped) inside
the `%query%` pattern. -/
theorem searchBooks_ci_substring (s : DBState) (q : String) (hq : noWild (lowerL q.data)) :
    searchBooks s q =
      (sortByTitle (s.filter
        (fun r => containsCI r.title q || containsCI r.author q))).map rowToBook ∧
    ((∀ r ∈ s, containsCI r.title q = false ∧ containsCI r.author q = false) →
      searchBooks s q = []) := by
  have hfilter : s.filter
      (fun r => ilike ("%" ++ q ++ "%") r.title || ilike ("%" ++ q ++ "%") r.author) =
      s.filter (fun r => containsCI r.title q || containsCI r.author q) :=
    List.filter_congr (fun r _ => by
      rw [ilike_wrap_eq_containsCI q hq, ilike_wrap_eq_containsCI q hq])
  constructor
  · show (sortByTitle (s.filter
        (fun r => ilike ("%" ++ q ++ "%") r.title || ilike ("%" ++ q ++ "%") r.author))).map
        rowToBook = _
    rw [hfilter]
  · intro hnone
    show (sortByTitle (s.filter
        (fun r => ilike ("%" ++ q ++ "%") r.title || ilike ("%" ++ q ++ "%") r.author))).map
        rowToBook = []
    rw [hfilter]
    have hnil : s.filter (fun r => containsCI r.title q || containsCI r.author q) = [] := by
      rw [List.filter_eq_nil_iff]
      intro r hr
      simp [(hnone r hr).1, (hnone r hr).2]
    rw [hnil]
    rfl

theorem searchBooks_ci_substring_witness :
    noWild (lowerL "bo".data) ∧
    searchBooks [⟨"id1", "Book", "A", none, none, 0, 0⟩] "bo" =
      (sortByTitle ([(⟨"id1", "Book", "A", none, none, 0, 0⟩ : Row)].filter
        (fun r => containsCI r.title "bo" || containsCI r.author "bo"))).map rowToBook :=
  ⟨by decide, (searchBooks_ci_substring [⟨"id1", "Book", "A", none, none, 0, 0⟩] "bo"
    (by decide)).1⟩

/-- C3 counterexample: with one stored book (title "abc", author "xyz"), the
query "a_c" is a substring of neither title nor author, yet `searchBooks`
returns the book, because the unescaped `_` acts as a single-character
wildcard inside the `%a_c%` pattern; so case-insensitive substring
containment is not the defining condition for every query. -/
theorem searchBooks_wildcard_counterexample :
    searchBooks [⟨"id1", "abc", "xyz", none, none, 0, 0⟩] "a_c" =
      [⟨"id1", "abc", "xyz", none, none⟩] ∧
    containsCI "abc" "a_c" = false ∧ containsCI "xyz" "a_c" = false := by
  decide
